import Mathlib

set_option maxRecDepth 100000

/-!
Verification of the PIX payment-code core of the Delta Silk Print system.

The embedded functions come from the server module that implements the PIX
EMV payload codec: generatePixCode, calculateCRC16, validatePixCode and the
QR-code cache wrapper generatePixQRCode.  Strings are modelled as Lean
strings (lists of characters); the JavaScript charCodeAt value of a
character is modelled as Char.toNat, which agrees with the source for every
character the payloads carry.  The JavaScript bitwise operators coerce
their operands to 32-bit integers; that truncation drops bits at position
32 and above and never changes bits 0..15, and the function result is the
register masked to 16 bits, so the register is modelled as an unbounded
natural number.  The proofs below establish the equivalence with the
per-step 16-bit-masked reference, which also covers the 32-bit-truncated
reading of the source.
-/

namespace DeltaSilk

/-! ## Number rendering helpers (JavaScript String(n) and toString(16)) -/

/-- Little-endian base digits with explicit fuel, so that the definition is
structurally recursive and evaluates inside the kernel.  With fuel at least
n it agrees with Nat.digits (proved below). -/
def digitsRevAux (base : Nat) : Nat → Nat → List Nat
  | 0, _ => []
  | fuel + 1, n => if n = 0 then [] else n % base :: digitsRevAux base fuel (n / base)

/-- Little-endian base digits of n. -/
def digitsRev (base n : Nat) : List Nat :=
  digitsRevAux base n n

/-- The digit characters used by JavaScript Number.prototype.toString after
toUpperCase: 0-9 then A-F. -/
def hexDigitChar (d : Nat) : Char :=
  if d < 10 then Char.ofNat (48 + d) else Char.ofNat (55 + d)

/-- Numeric value of a digit character, the left inverse of hexDigitChar. -/
def hexCharVal (ch : Char) : Nat :=
  if 65 ≤ ch.toNat then ch.toNat - 55 else ch.toNat - 48

/-- JavaScript String(n) for a natural number n (decimal rendering). -/
def decString (n : Nat) : String :=
  if n = 0 then "0" else ⟨((digitsRev 10 n).map hexDigitChar).reverse⟩

/-- JavaScript n.toString(16).toUpperCase() for a natural number n. -/
def toHexUpper (n : Nat) : String :=
  if n = 0 then "0" else ⟨((digitsRev 16 n).map hexDigitChar).reverse⟩

/-- JavaScript s.padStart(n, c): prepend copies of c until length n. -/
def padStart (n : Nat) (c : Char) (s : String) : String :=
  ⟨List.replicate (n - s.length) c ++ s.data⟩

/-- The four-character checksum rendering used by the source at both ends:
crc.toString(16).toUpperCase().padStart(4, '0'). -/
def crcToHex (n : Nat) : String :=
  padStart 4 '0' (toHexUpper n)

/-! ## Checksum engine (calculateCRC16) -/

/-- One iteration of the inner bit loop of calculateCRC16 as written in the
source: shift left by one and XOR the polynomial 0x1021 when bit 15 of the
register is set; the register is not masked inside the loop. -/
def crcShift (crc : Nat) : Nat :=
  if crc &&& 0x8000 ≠ 0 then (crc <<< 1) ^^^ 0x1021 else crc <<< 1

/-- Processing of one input character by calculateCRC16: the character code
is XORed into the high byte of the register, then eight shift steps run. -/
def crcByte (crc : Nat) (c : Nat) : Nat :=
  crcShift^[8] (crc ^^^ (c <<< 8))

/-- calculateCRC16 from the source: the register starts at 0xFFFF, each
character of the input is processed in order, and the final register is
masked to 16 bits. -/
def calculateCRC16 (data : String) : Nat :=
  (data.data.foldl (fun crc ch => crcByte crc ch.toNat) 0xFFFF) &&& 0xFFFF

/-- Modelled from the spec, section 4.1: one shift step of the
CRC-16/CCITT-FALSE reference, with the register masked to 16 bits after
each step. -/
def crcShiftRef (crc : Nat) : Nat :=
  (if crc &&& 0x8000 ≠ 0 then (crc <<< 1) ^^^ 0x1021 else crc <<< 1) &&& 0xFFFF

/-- Modelled from the spec, section 4.1: one byte of the reference CRC; the
character code point is truncated to 8 bits before entering the register. -/
def crcByteRef (crc : Nat) (c : Nat) : Nat :=
  crcShiftRef^[8] (crc ^^^ ((c &&& 0xFF) <<< 8))

/-- Modelled from the spec, section 4.1: the CRC-16/CCITT-FALSE reference
checksum of a character sequence. -/
def crc16Ref (data : String) : Nat :=
  data.data.foldl (fun crc ch => crcByteRef crc ch.toNat) 0xFFFF

/-! ## Payload composer (generatePixCode) -/

/-- The payload string assembled by generatePixCode before the checksum is
appended.  The pieces appear exactly as in the source array join, with the
merchant name and city constants of the source written inline; pixKey and
txId are the values the source reads from the environment and from the
random generator. -/
def pixPayload (amountStr pixKey txId : String) : String :=
  "00" ++ "02" ++ "01" ++ "12" ++
  ("26" ++ padStart 2 '0' (decString (pixKey.length + 19))) ++
  ("0014" ++ "br.gov.bcb.pix") ++
  ("01" ++ padStart 2 '0' (decString pixKey.length) ++ pixKey) ++
  ("52" ++ "0000") ++
  ("53" ++ "986") ++
  ("54" ++ padStart 2 '0' (decString amountStr.length) ++ amountStr) ++
  ("58" ++ "02" ++ "BR") ++
  ("59" ++ padStart 2 '0' (decString ("DELTA SILK PRINT" : String).length) ++ "DELTA SILK PRINT") ++
  ("60" ++ padStart 2 '0' (decString ("SAO PAULO" : String).length) ++ "SAO PAULO") ++
  ("62" ++ padStart 2 '0' (decString (txId.length + 4)) ++ "05" ++ padStart 2 '0' (decString txId.length) ++ txId) ++
  ("63" ++ "04")

/-- generatePixCode from the source.  The description parameter is accepted
and ignored exactly as in the source; the PIX key (environment
configuration) and the transaction id (the outcome of the random
generation, 25 lowercase hex characters in the source) are passed
explicitly to make the function pure. -/
def generatePixCode (amount _description pixKey txId : String) : String :=
  pixPayload amount pixKey txId ++ crcToHex (calculateCRC16 (pixPayload amount pixKey txId))

/-! ## Payload validator (validatePixCode) -/

/-- validatePixCode from the source: candidates shorter than 10 characters
are rejected; otherwise the last four characters are compared with the
recomputed checksum rendering of the rest.  Nothing in the source body can
throw, so the try/catch of the source adds no behaviour. -/
def validatePixCode (pixCode : String) : Bool :=
  if pixCode.length < 10 then false
  else
    String.mk (pixCode.data.drop (pixCode.length - 4)) ==
      crcToHex (calculateCRC16 (String.mk (pixCode.data.take (pixCode.length - 4))))

/-! ## Bitwise groundwork -/

lemma and_ffff (x : Nat) : x &&& 65535 = x % 65536 := by
  have h := Nat.and_pow_two_sub_one_eq_mod x 16
  norm_num at h
  exact h

lemma and_ff (x : Nat) : x &&& 255 = x % 256 := by
  have h := Nat.and_pow_two_sub_one_eq_mod x 8
  norm_num at h
  exact h

lemma testBit_ffff (i : Nat) : Nat.testBit 65535 i = decide (i < 16) := by
  have h := Nat.testBit_two_pow_sub_one 16 i
  norm_num at h
  exact h

lemma xor_left_comm (a b c : Nat) : a ^^^ (b ^^^ c) = b ^^^ (a ^^^ c) := by
  rw [← Nat.xor_assoc, Nat.xor_comm a b, Nat.xor_assoc]

lemma shiftLeft_xor_distrib (x y n : Nat) : (x ^^^ y) <<< n = (x <<< n) ^^^ (y <<< n) := by
  apply Nat.eq_of_testBit_eq
  intro i
  simp only [Nat.testBit_shiftLeft, Nat.testBit_xor]
  by_cases h : n ≤ i <;> simp [h]

lemma shiftLeft_one_and (x : Nat) : (x <<< 1) &&& 65535 = ((x &&& 65535) <<< 1) &&& 65535 := by
  apply Nat.eq_of_testBit_eq
  intro i
  simp only [Nat.testBit_and, Nat.testBit_shiftLeft, testBit_ffff]
  by_cases h2 : i < 16
  · by_cases h1 : 1 ≤ i
    · have h3 : i - 1 < 16 := by omega
      simp [h1, h2, h3]
    · simp [h1]
  · simp [h2]

lemma shiftLeft_eight_and (c : Nat) : (c <<< 8) &&& 65535 = (c &&& 255) <<< 8 := by
  apply Nat.eq_of_testBit_eq
  intro i
  simp only [Nat.testBit_and, Nat.testBit_shiftLeft, testBit_ffff,
    show (255 : Nat) = 2 ^ 8 - 1 by norm_num, Nat.testBit_two_pow_sub_one]
  by_cases h1 : 8 ≤ i <;> by_cases h2 : i < 16 <;>
    simp [h1, h2] <;> omega

lemma testBit15_of_and (x : Nat) : (x &&& 32768 ≠ 0) ↔ x.testBit 15 = true := by
  have h := Nat.and_two_pow x 15
  norm_num at h
  rw [h]
  cases hx : x.testBit 15 <;> simp

/-! ## The shift step is 16-bit bounded, linear over XOR, and injective -/

lemma crcShiftRef_eq (x : Nat) :
    crcShiftRef x = ((x <<< 1) &&& 65535) ^^^ (if x.testBit 15 then 4129 else 0) := by
  unfold crcShiftRef
  by_cases h : x &&& 32768 ≠ 0
  · have hx : x.testBit 15 = true := (testBit15_of_and x).mp h
    rw [if_pos h, hx, if_pos rfl, Nat.and_xor_distrib_right]
    have h41 : (4129 : Nat) &&& 65535 = 4129 := by decide
    rw [h41]
  · have hx : x.testBit 15 = false := by
      cases hb : x.testBit 15
      · rfl
      · exact absurd ((testBit15_of_and x).mpr hb) h
    rw [if_neg h, hx, if_neg (by simp), Nat.xor_zero]

lemma crcShiftRef_lt (x : Nat) : crcShiftRef x < 65536 := by
  unfold crcShiftRef
  have h := Nat.and_le_right (n := if x &&& 32768 ≠ 0 then (x <<< 1) ^^^ 4129 else x <<< 1)
    (m := 65535)
  omega

lemma crcShiftRef_xor (x y : Nat) :
    crcShiftRef (x ^^^ y) = crcShiftRef x ^^^ crcShiftRef y := by
  rw [crcShiftRef_eq, crcShiftRef_eq, crcShiftRef_eq, shiftLeft_xor_distrib,
    Nat.and_xor_distrib_right, Nat.testBit_xor]
  cases hx : x.testBit 15 <;> cases hy : y.testBit 15 <;>
    simp [Nat.xor_assoc, xor_left_comm, Nat.xor_comm, Nat.xor_cancel_left]

lemma crcShiftRef_eq_zero {x : Nat} (hlt : x < 65536) (h0 : crcShiftRef x = 0) : x = 0 := by
  rw [crcShiftRef_eq] at h0
  cases hx : x.testBit 15 with
  | true =>
    rw [hx] at h0
    simp only [if_pos] at h0
    have h1 : (x <<< 1) &&& 65535 = 4129 := by
      have := Nat.xor_eq_zero.mp h0
      simpa using this
    rw [and_ffff, Nat.shiftLeft_eq] at h1
    omega
  | false =>
    rw [hx] at h0
    simp only [if_neg, Bool.false_eq_true, not_false_eq_true, Nat.xor_zero] at h0
    rw [and_ffff, Nat.shiftLeft_eq] at h0
    have hx2 : x = 0 ∨ x = 32768 := by omega
    rcases hx2 with rfl | rfl
    · rfl
    · exact absurd hx (by decide)

lemma iter_crcShiftRef_lt (n : Nat) {x : Nat} (h : x < 65536) : crcShiftRef^[n] x < 65536 := by
  induction n generalizing x with
  | zero => exact h
  | succ n ih =>
    rw [Function.iterate_succ_apply]
    exact ih (crcShiftRef_lt x)

lemma iter_crcShiftRef_xor (n x y : Nat) :
    crcShiftRef^[n] x ^^^ crcShiftRef^[n] y = crcShiftRef^[n] (x ^^^ y) := by
  induction n generalizing x y with
  | zero => rfl
  | succ n ih =>
    rw [Function.iterate_succ_apply, Function.iterate_succ_apply,
      Function.iterate_succ_apply, ih, crcShiftRef_xor]

lemma iter_crcShiftRef_ne_zero (n : Nat) {x : Nat} (hlt : x < 65536) (hx : x ≠ 0) :
    crcShiftRef^[n] x ≠ 0 := by
  induction n generalizing x with
  | zero => exact hx
  | succ n ih =>
    rw [Function.iterate_succ_apply]
    exact ih (crcShiftRef_lt x) (fun h0 => hx (crcShiftRef_eq_zero hlt h0))

/-! ## The source loop equals the per-step-masked reference -/

lemma crcShift_mod (x : Nat) : crcShift x &&& 65535 = crcShiftRef (x &&& 65535) := by
  unfold crcShift crcShiftRef
  have hc : (x &&& 65535) &&& 32768 = x &&& 32768 := by
    rw [Nat.and_assoc]
    have h2 : (65535 : Nat) &&& 32768 = 32768 := by decide
    rw [h2]
  rw [hc]
  by_cases h : x &&& 32768 ≠ 0
  · rw [if_pos h, if_pos h, Nat.and_xor_distrib_right, Nat.and_xor_distrib_right,
      ← shiftLeft_one_and]
  · rw [if_neg h, if_neg h, ← shiftLeft_one_and]

lemma iter_crcShift_mod (n x : Nat) :
    (crcShift^[n] x) &&& 65535 = crcShiftRef^[n] (x &&& 65535) := by
  induction n generalizing x with
  | zero => rfl
  | succ n ih =>
    rw [Function.iterate_succ_apply, Function.iterate_succ_apply, ih, crcShift_mod]

lemma crcByte_mod (x c : Nat) : crcByte x c &&& 65535 = crcByteRef (x &&& 65535) c := by
  unfold crcByte crcByteRef
  rw [iter_crcShift_mod]
  congr 1
  rw [Nat.and_xor_distrib_right, shiftLeft_eight_and]

lemma foldl_crc_mod (l : List Char) (x : Nat) :
    (l.foldl (fun crc ch => crcByte crc ch.toNat) x) &&& 65535 =
      l.foldl (fun crc ch => crcByteRef crc ch.toNat) (x &&& 65535) := by
  induction l generalizing x with
  | nil => rfl
  | cons c t ih =>
    rw [List.foldl_cons, List.foldl_cons, ih, crcByte_mod]

/-- Shared bridge: the source checksum equals the reference checksum. -/
lemma calculateCRC16_eq_ref (s : String) : calculateCRC16 s = crc16Ref s := by
  unfold calculateCRC16 crc16Ref
  rw [foldl_crc_mod]
  have h : (65535 : Nat) &&& 65535 = 65535 := by decide
  rw [h]

lemma calculateCRC16_le (s : String) : calculateCRC16 s ≤ 65535 := by
  unfold calculateCRC16
  exact Nat.and_le_right

lemma calculateCRC16_lt (s : String) : calculateCRC16 s < 65536 := by
  have := calculateCRC16_le s
  omega

/-! ## Hex rendering: agreement with Nat.digits, parsing, injectivity -/

lemma data_mk (l : List Char) : (String.mk l).data = l := rfl

lemma length_mk (l : List Char) : (String.mk l).length = l.length := rfl

lemma digitsRevAux_eq_digits (b : Nat) (hb : 1 < b) :
    ∀ fuel n, n ≤ fuel → digitsRevAux b fuel n = Nat.digits b n := by
  intro fuel
  induction fuel with
  | zero =>
    intro n hn
    have h0 : n = 0 := by omega
    subst h0
    simp [digitsRevAux]
  | succ fuel ih =>
    intro n hn
    by_cases h0 : n = 0
    · subst h0
      simp [digitsRevAux]
    · simp only [digitsRevAux, if_neg h0]
      rw [Nat.digits_def' hb (Nat.pos_of_ne_zero h0)]
      congr 1
      apply ih
      have := Nat.div_lt_self (Nat.pos_of_ne_zero h0) hb
      omega

lemma digitsRev_eq_digits (b n : Nat) (hb : 1 < b) : digitsRev b n = Nat.digits b n :=
  digitsRevAux_eq_digits b hb n n (Nat.le_refl n)

lemma hexVal_hexChar : ∀ d < 16, hexCharVal (hexDigitChar d) = d := by decide

/-- Parsing four (or any) hex characters back into a number: the left
inverse of crcToHex, used only to prove that crcToHex is injective. -/
def parseHex4 (s : String) : Nat :=
  Nat.ofDigits 16 (s.data.reverse.map hexCharVal)

lemma ofDigits_replicate_zero (k : Nat) : Nat.ofDigits 16 (List.replicate k 0) = 0 := by
  induction k with
  | zero => rfl
  | succ k ih => simp [List.replicate_succ, Nat.ofDigits_cons, ih]

lemma parseHex4_crcToHex (n : Nat) : parseHex4 (crcToHex n) = n := by
  by_cases h0 : n = 0
  · subst h0
    decide
  · simp only [crcToHex, padStart, toHexUpper, parseHex4, if_neg h0, data_mk, length_mk]
    rw [digitsRev_eq_digits 16 n (by norm_num)]
    rw [List.reverse_append, List.reverse_reverse, List.reverse_replicate, List.map_append,
      List.map_map, List.map_replicate]
    have hc0 : hexCharVal '0' = 0 := by decide
    rw [hc0]
    have hmap : List.map (hexCharVal ∘ hexDigitChar) (Nat.digits 16 n) =
        List.map id (Nat.digits 16 n) :=
      List.map_congr_left (fun d hd => hexVal_hexChar d (Nat.digits_lt_base (by norm_num) hd))
    rw [hmap, List.map_id, Nat.ofDigits_append, Nat.ofDigits_digits, ofDigits_replicate_zero,
      mul_zero, add_zero]

lemma crcToHex_inj {a b : Nat} (h : crcToHex a = crcToHex b) : a = b := by
  have := congrArg parseHex4 h
  rwa [parseHex4_crcToHex, parseHex4_crcToHex] at this

lemma digits16_length_le {n : Nat} (hn : n < 65536) : (Nat.digits 16 n).length ≤ 4 := by
  by_cases h0 : n = 0
  · subst h0
    simp
  · by_contra h5
    have h5' : 5 ≤ (Nat.digits 16 n).length := by omega
    have hp := Nat.base_pow_length_digits_le 16 n (by norm_num) h0
    have hle : (16 : ℕ) ^ 5 ≤ 16 ^ (Nat.digits 16 n).length :=
      Nat.pow_le_pow_right (by norm_num) h5'
    have h16 : (16 : ℕ) ^ 5 = 1048576 := by norm_num
    omega

lemma crcToHex_length {n : Nat} (hn : n < 65536) : (crcToHex n).length = 4 := by
  by_cases h0 : n = 0
  · subst h0
    decide
  · simp only [crcToHex, padStart, toHexUpper, if_neg h0, data_mk, length_mk,
      List.length_append, List.length_replicate, List.length_reverse, List.length_map]
    rw [digitsRev_eq_digits 16 n (by norm_num)]
    have := digits16_length_le hn
    omega

/-! ## Validator and composer basic lemmas -/

lemma validate_append (p c : String) (h4 : c.length = 4) (h10 : 10 ≤ p.length + 4) :
    validatePixCode (p ++ c) = (c == crcToHex (calculateCRC16 p)) := by
  unfold validatePixCode
  have hlen : (p ++ c).length = p.length + 4 := by rw [String.length_append, h4]
  rw [hlen, if_neg (by omega)]
  simp only [String.data_append]
  have hsub : p.length + 4 - 4 = p.length := by omega
  rw [hsub]
  have hp : p.data.length = p.length := rfl
  rw [List.take_left' hp, List.drop_left' hp]

lemma pixPayload_len (a k t : String) : 10 ≤ (pixPayload a k t).length := by
  have h1 : ("00" : String).length = 2 := rfl
  have h2 : ("02" : String).length = 2 := rfl
  have h3 : ("01" : String).length = 2 := rfl
  have h4 : ("12" : String).length = 2 := rfl
  have h5 : ("0014" : String).length = 4 := rfl
  simp only [pixPayload, String.length_append, h1, h2, h3, h4, h5]
  try omega

/-- Shared round-trip engine lemma: every generated payload validates. -/
lemma generate_roundtrip (amount description pixKey txId : String) :
    validatePixCode (generatePixCode amount description pixKey txId) = true := by
  unfold generatePixCode
  rw [validate_append _ _ (crcToHex_length (calculateCRC16_lt _))
    (by have := pixPayload_len amount pixKey txId; omega)]
  exact beq_self_eq_true _

/-- Shared guard lemma: candidates shorter than 10 characters are rejected. -/
lemma validate_short (s : String) (h : s.length < 10) : validatePixCode s = false := by
  unfold validatePixCode
  rw [if_pos h]

/-! ## Tamper detection machinery -/

lemma foldl_crcByteRef_xor (v : List Char) (x y : Nat) :
    (v.foldl (fun crc ch => crcByteRef crc ch.toNat) x) ^^^
      (v.foldl (fun crc ch => crcByteRef crc ch.toNat) y) =
      crcShiftRef^[8 * v.length] (x ^^^ y) := by
  induction v generalizing x y with
  | nil => simp
  | cons c t ih =>
    rw [List.foldl_cons, List.foldl_cons, ih]
    have hb : crcByteRef x c.toNat ^^^ crcByteRef y c.toNat = crcShiftRef^[8] (x ^^^ y) := by
      unfold crcByteRef
      rw [iter_crcShiftRef_xor]
      congr 1
      simp [Nat.xor_assoc, xor_left_comm, Nat.xor_comm, Nat.xor_cancel_left]
    rw [hb, ← Function.iterate_add_apply]
    have he : 8 * (c :: t).length = 8 * t.length + 8 := by
      simp [List.length_cons]
      omega
    rw [he]

/-- Changing one character of the input to one with a different low byte
changes the checksum: the CRC step map is injective on 16-bit values, so a
nonzero difference injected by the changed byte never cancels. -/
lemma crc_ne_single_byte (u v : List Char) (c c' : Char)
    (h : c.toNat % 256 ≠ c'.toNat % 256) :
    calculateCRC16 (String.mk (u ++ c :: v)) ≠ calculateCRC16 (String.mk (u ++ c' :: v)) := by
  rw [calculateCRC16_eq_ref, calculateCRC16_eq_ref]
  unfold crc16Ref
  simp only [data_mk, List.foldl_append, List.foldl_cons]
  intro heq
  have hx : (v.foldl (fun crc ch => crcByteRef crc ch.toNat)
        (crcByteRef (u.foldl (fun crc ch => crcByteRef crc ch.toNat) 65535) c.toNat)) ^^^
      (v.foldl (fun crc ch => crcByteRef crc ch.toNat)
        (crcByteRef (u.foldl (fun crc ch => crcByteRef crc ch.toNat) 65535) c'.toNat)) = 0 := by
    rw [heq]
    exact Nat.xor_self _
  rw [foldl_crcByteRef_xor] at hx
  have hb : crcByteRef (u.foldl (fun crc ch => crcByteRef crc ch.toNat) 65535) c.toNat ^^^
      crcByteRef (u.foldl (fun crc ch => crcByteRef crc ch.toNat) 65535) c'.toNat =
      crcShiftRef^[8] (((c.toNat &&& 255) ^^^ (c'.toNat &&& 255)) <<< 8) := by
    unfold crcByteRef
    rw [iter_crcShiftRef_xor]
    congr 1
    rw [shiftLeft_xor_distrib]
    simp [Nat.xor_assoc, xor_left_comm, Nat.xor_comm, Nat.xor_cancel_left]
  rw [hb, ← Function.iterate_add_apply] at hx
  have he : (c.toNat &&& 255) ^^^ (c'.toNat &&& 255) ≠ 0 := by
    rw [and_ff, and_ff]
    intro h0
    exact h (Nat.xor_eq_zero.mp h0)
  have hδne : (((c.toNat &&& 255) ^^^ (c'.toNat &&& 255)) <<< 8) ≠ 0 := by
    rw [Nat.shiftLeft_eq]
    intro h0
    rcases Nat.mul_eq_zero.mp h0 with h1 | h1
    · exact he h1
    · norm_num at h1
  have hδlt : (((c.toNat &&& 255) ^^^ (c'.toNat &&& 255)) <<< 8) < 65536 := by
    have hx1 : c.toNat &&& 255 < 256 := by
      have := Nat.and_le_right (n := c.toNat) (m := 255)
      omega
    have hx2 : c'.toNat &&& 255 < 256 := by
      have := Nat.and_le_right (n := c'.toNat) (m := 255)
      omega
    have h256 : (256 : Nat) = 2 ^ 8 := by norm_num
    rw [h256] at hx1 hx2
    have hxor := Nat.xor_lt_two_pow hx1 hx2
    rw [Nat.shiftLeft_eq, ← h256] at *
    omega
  exact iter_crcShiftRef_ne_zero _ hδlt hδne hx

/-! ## Claim theorems -/

/-- Claim C6: for every character sequence, including the empty one,
calculateCRC16 terminates (it is a total Lean function), returns a value
of at most 0xFFFF, and equals the CRC-16/CCITT-FALSE reference definition
crc16Ref, which masks the register to 16 bits after every shift step and
truncates each character code point to 8 bits: the single final mask and
the unmasked loop of the source are equivalent to the per-step-masked
reference. -/
theorem crc16_matches_reference (s : String) :
    calculateCRC16 s = crc16Ref s ∧ calculateCRC16 s ≤ 0xFFFF :=
  ⟨calculateCRC16_eq_ref s, calculateCRC16_le s⟩

/-- Claim C1: for every amount string, description string, PIX key value and
every outcome of the random transaction-reference generation,
validatePixCode applied to the output of generatePixCode returns true: the
appended 4-uppercase-hex checksum recomputes over the prefix, which ends
with the "6304" header.  The theorem quantifies over arbitrary strings for
all four inputs, which covers in particular the 25-hex-character outcomes
of the random generator. -/
theorem validate_generate_roundtrip (amount description pixKey txId : String) :
    validatePixCode (generatePixCode amount description pixKey txId) = true :=
  generate_roundtrip amount description pixKey txId

/-- Claim C7: validatePixCode is a total boolean function (it is a Lean
function into Bool, and no step of its body can fail), and every candidate
of length strictly below 10 is rejected by the initial guard, before the
candidate is inspected any further. -/
theorem validate_short_false (s : String) (h : s.length < 10) : validatePixCode s = false := by
  unfold validatePixCode
  rw [if_pos h]

/-- Witness for C7 at the concrete nine-character candidate "123456789". -/
theorem validate_short_false_witness :
    ("123456789" : String).length < 10 ∧ validatePixCode "123456789" = false :=
  ⟨by decide, validate_short_false "123456789" (by decide)⟩

/-- Claim C10: calculateCRC16 of the empty string is exactly 0xFFFF, the
initial register value, and consequently every candidate of length at
least 10 that ends in "FFFF" and whose prefix has checksum 0xFFFF is
accepted by validatePixCode. -/
theorem empty_crc_ffff :
    calculateCRC16 "" = 0xFFFF ∧
    ∀ s : String, 10 ≤ s.length →
      s.data.drop (s.length - 4) = ['F', 'F', 'F', 'F'] →
      calculateCRC16 (String.mk (s.data.take (s.length - 4))) = 0xFFFF →
      validatePixCode s = true := by
  constructor
  · decide
  · intro s hs hdrop hcrc
    unfold validatePixCode
    rw [if_neg (by omega), hdrop, hcrc]
    decide

/-- Witness for C10: the candidate "PIX0GMFFFF" has length 10, ends in
"FFFF", its prefix "PIX0GM" has checksum 0xFFFF, and it validates. -/
theorem empty_crc_ffff_witness :
    10 ≤ ("PIX0GMFFFF" : String).length ∧
    ("PIX0GMFFFF" : String).data.drop (("PIX0GMFFFF" : String).length - 4) =
      ['F', 'F', 'F', 'F'] ∧
    calculateCRC16
      (String.mk (("PIX0GMFFFF" : String).data.take (("PIX0GMFFFF" : String).length - 4))) =
      0xFFFF ∧
    validatePixCode "PIX0GMFFFF" = true :=
  ⟨by decide, by decide, by decide,
    empty_crc_ffff.2 "PIX0GMFFFF" (by decide) (by decide) (by decide)⟩

/-! ## Claim C2: tamper detection -/

/-- Counterexample to claim C2 as stated: "ABCDEF" followed by its checksum
is a valid payload, and replacing its first character by the different
character U+0141 (whose code point 0x0141 has the same low byte as the
letter A, code 0x41) while keeping the checksum suffix still validates, so
a single-character change of the prefix is not always detected. -/
theorem tamper_mod256_undetected :
    validatePixCode ("ABCDEF" ++ crcToHex (calculateCRC16 "ABCDEF")) = true ∧
    validatePixCode
      (String.mk ('Ł' :: "BCDEF".data) ++ crcToHex (calculateCRC16 "ABCDEF")) = true ∧
    'Ł' ≠ 'A' ∧
    String.mk ('Ł' :: "BCDEF".data) ≠ "ABCDEF" := by
  refine ⟨by decide, by decide, by decide, by decide⟩

/-- Claim C2 (amended): for any valid payload, built as an arbitrary prefix
followed by its 4-uppercase-hex checksum, changing a single character of
the prefix to a character whose code point differs modulo 256 (for the
printable-ASCII payload alphabet: to any other character) while keeping the
checksum suffix unchanged makes validatePixCode return false. -/
theorem validate_detects_byte_change (u v : List Char) (c c' : Char)
    (h : c.toNat % 256 ≠ c'.toNat % 256) :
    validatePixCode (String.mk (u ++ c' :: v) ++
      crcToHex (calculateCRC16 (String.mk (u ++ c :: v)))) = false := by
  have hc4 : (crcToHex (calculateCRC16 (String.mk (u ++ c :: v)))).length = 4 :=
    crcToHex_length (calculateCRC16_lt _)
  by_cases hlen : 10 ≤ (String.mk (u ++ c' :: v)).length + 4
  · rw [validate_append _ _ hc4 hlen, beq_eq_false_iff_ne]
    intro heq
    exact crc_ne_single_byte u v c c' h (crcToHex_inj heq)
  · apply validate_short
    rw [String.length_append, hc4]
    omega

/-- Witness for the amended C2: in the valid payload built over the prefix
"00020A", replacing the final A of the prefix by B invalidates it. -/
theorem validate_detects_byte_change_witness :
    ('A'.toNat % 256 ≠ 'B'.toNat % 256) ∧
    validatePixCode (String.mk ("00020".data ++ 'B' :: []) ++
      crcToHex (calculateCRC16 (String.mk ("00020".data ++ 'A' :: [])))) = false :=
  ⟨by decide, validate_detects_byte_change "00020".data [] 'A' 'B' (by decide)⟩

/-! ## Substring occurrence helper -/

/-- Boolean substring test over character lists: pat occurs contiguously
inside s. -/
def containsSub (s pat : List Char) : Bool :=
  pat.isPrefixOf s ||
    match s with
    | [] => false
    | _ :: t => containsSub t pat

/-- Boolean substring test over strings. -/
def strContains (s pat : String) : Bool :=
  containsSub s.data pat.data

lemma isPrefixOf_append_self (m r : List Char) : m.isPrefixOf (m ++ r) = true := by
  induction m with
  | nil => simp [List.isPrefixOf]
  | cons a t ih => simp [List.isPrefixOf, ih]

lemma containsSub_of_isPrefixOf (s pat : List Char) (h : pat.isPrefixOf s = true) :
    containsSub s pat = true := by
  cases s <;> simp [containsSub, h]

lemma containsSub_append_right (x y pat : List Char) (h : containsSub y pat = true) :
    containsSub (x ++ y) pat = true := by
  induction x with
  | nil => simpa using h
  | cons a t ih => simp [containsSub, ih]

lemma strContains_of_middle (x m y : String) : strContains (x ++ (m ++ y)) m = true := by
  unfold strContains
  simp only [String.data_append]
  exact containsSub_append_right _ _ _
    (containsSub_of_isPrefixOf _ _ (isPrefixOf_append_self m.data y.data))

/-! ## Claim C5: absence of the length guard -/

lemma decString_length_ge {n : Nat} (h : 100 ≤ n) : 3 ≤ (decString n).length := by
  have h0 : n ≠ 0 := by omega
  simp only [decString, if_neg h0, length_mk, List.length_reverse, List.length_map]
  rw [digitsRev_eq_digits 10 n (by norm_num)]
  by_contra hle
  have hle2 : (Nat.digits 10 n).length ≤ 2 := by omega
  have hlt := Nat.lt_base_pow_length_digits (b := 10) (m := n) (by norm_num)
  have hpow : (10 : ℕ) ^ (Nat.digits 10 n).length ≤ 10 ^ 2 :=
    Nat.pow_le_pow_right (by norm_num) hle2
  norm_num at hpow
  omega

lemma padStart_two_length (s : String) : (padStart 2 '0' s).length = (2 - s.length) + s.length := by
  simp [padStart, length_mk]

/-- Counterexample to claim C5 as stated: with a 100-character amount the
source does not reject and does not truncate; it emits a payload in which
the amount field appears with the three-digit length field "100", because
padStart leaves renderings longer than two characters unchanged. -/
theorem length_guard_absent :
    (padStart 2 '0' (decString 100)).length = 3 ∧
    strContains
      (generatePixCode (String.mk (List.replicate 100 'a')) "d"
        "contato@deltasilkprint.com.br" "a3f9c2d8e7b6a5f4c3d2e1b0a")
      ("54100" ++ String.mk (List.replicate 100 'a')) = true := by
  refine ⟨by decide, by decide⟩

/-- Claim C5 (amended): the source performs no length validation at all:
for every amount of 100 or more characters, and any other inputs, the
composition still produces a payload; the amount field is emitted with a
length field of three or more digits, since padStart does not truncate,
and the payload carries a matching checksum. -/
theorem generate_no_length_guard (amount d k t : String) (h : 100 ≤ amount.length) :
    3 ≤ (padStart 2 '0' (decString amount.length)).length ∧
    strContains (generatePixCode amount d k t)
      ("54" ++ padStart 2 '0' (decString amount.length) ++ amount) = true ∧
    validatePixCode (generatePixCode amount d k t) = true := by
  refine ⟨?_, ?_, generate_roundtrip amount d k t⟩
  · rw [padStart_two_length]
    have := decString_length_ge h
    omega
  · have hdec : generatePixCode amount d k t =
        ("00" ++ "02" ++ "01" ++ "12" ++
          ("26" ++ padStart 2 '0' (decString (k.length + 19))) ++
          ("0014" ++ "br.gov.bcb.pix") ++
          ("01" ++ padStart 2 '0' (decString k.length) ++ k) ++
          ("52" ++ "0000") ++
          ("53" ++ "986")) ++
        (("54" ++ padStart 2 '0' (decString amount.length) ++ amount) ++
          (("58" ++ "02" ++ "BR") ++
          ("59" ++ padStart 2 '0' (decString ("DELTA SILK PRINT" : String).length) ++
            "DELTA SILK PRINT") ++
          ("60" ++ padStart 2 '0' (decString ("SAO PAULO" : String).length) ++ "SAO PAULO") ++
          ("62" ++ padStart 2 '0' (decString (t.length + 4)) ++ "05" ++
            padStart 2 '0' (decString t.length) ++ t) ++
          ("63" ++ "04") ++
          crcToHex (calculateCRC16 (pixPayload amount k t)))) := by
      simp [generatePixCode, pixPayload, String.append_assoc]
    rw [hdec]
    exact strContains_of_middle _ _ _

/-- Witness for the amended C5 at a concrete 100-character amount. -/
theorem generate_no_length_guard_witness :
    100 ≤ (String.mk (List.replicate 100 'a')).length ∧
    (3 ≤ (padStart 2 '0' (decString (String.mk (List.replicate 100 'a')).length)).length ∧
     strContains (generatePixCode (String.mk (List.replicate 100 'a')) "d" "k" "t")
       ("54" ++ padStart 2 '0' (decString (String.mk (List.replicate 100 'a')).length) ++
         String.mk (List.replicate 100 'a')) = true ∧
     validatePixCode (generatePixCode (String.mk (List.replicate 100 'a')) "d" "k" "t") = true) :=
  ⟨by decide, generate_no_length_guard (String.mk (List.replicate 100 'a')) "d" "k" "t" (by decide)⟩

/-! ## The concrete payload for amount "10.00" and key test@example.com -/

/-- Helper for stepwise evaluation of the reference checksum. -/
def crcRefF (crc : Nat) (ch : Char) : Nat :=
  crcByteRef crc ch.toNat

lemma c4_crc :
    calculateCRC16 "0002011226350014br.gov.bcb.pix0116test@example.com52000053986540510.005802BR5916DELTA SILK PRINT6009SAO PAULO62290525a3f9c2d8e7b6a5f4c3d2e1b0a6304" = 32581 := by
  rw [calculateCRC16_eq_ref]
  show List.foldl crcRefF 65535 ['0', '0', '0', '2', '0', '1', '1', '2', '2', '6', '3', '5', '0', '0', '1', '4', 'b', 'r', '.', 'g', 'o', 'v', '.', 'b', 'c', 'b', '.', 'p', 'i', 'x', '0', '1', '1', '6', 't', 'e', 's', 't', '@', 'e', 'x', 'a', 'm', 'p', 'l', 'e', '.', 'c', 'o', 'm', '5', '2', '0', '0', '0', '0', '5', '3', '9', '8', '6', '5', '4', '0', '5', '1', '0', '.', '0', '0', '5', '8', '0', '2', 'B', 'R', '5', '9', '1', '6', 'D', 'E', 'L', 'T', 'A', ' ', 'S', 'I', 'L', 'K', ' ', 'P', 'R', 'I', 'N', 'T', '6', '0', '0', '9', 'S', 'A', 'O', ' ', 'P', 'A', 'U', 'L', 'O', '6', '2', '2', '9', '0', '5', '2', '5', 'a', '3', 'f', '9', 'c', '2', 'd', '8', 'e', '7', 'b', '6', 'a', '5', 'f', '4', 'c', '3', 'd', '2', 'e', '1', 'b', '0', 'a', '6', '3', '0', '4'] = 32581
  rw [List.foldl_cons, (show crcRefF 65535 '0' = 55203 by decide)]
  rw [List.foldl_cons, (show crcRefF 55203 '0' = 11977 by decide)]
  rw [List.foldl_cons, (show crcRefF 11977 '0' = 15103 by decide)]
  rw [List.foldl_cons, (show crcRefF 15103 '2' = 32264 by decide)]
  rw [List.foldl_cons, (show crcRefF 32264 '0' = 41226 by decide)]
  rw [List.foldl_cons, (show crcRefF 41226 '1' = 35257 by decide)]
  rw [List.foldl_cons, (show crcRefF 35257 '1' = 40915 by decide)]
  rw [List.foldl_cons, (show crcRefF 40915 '2' = 46919 by decide)]
  rw [List.foldl_cons, (show crcRefF 46919 '2' = 34349 by decide)]
  rw [List.foldl_cons, (show crcRefF 34349 '6' = 35547 by decide)]
  rw [List.foldl_cons, (show crcRefF 35547 '3' = 60914 by decide)]
  rw [List.foldl_cons, (show crcRefF 60914 '5' = 47221 by decide)]
  rw [List.foldl_cons, (show crcRefF 47221 '0' = 25984 by decide)]
  rw [List.foldl_cons, (show crcRefF 25984 '0' = 35408 by decide)]
  rw [List.foldl_cons, (show crcRefF 35408 '1' = 18096 by decide)]
  rw [List.foldl_cons, (show crcRefF 18096 '4' = 61141 by decide)]
  rw [List.foldl_cons, (show crcRefF 61141 'b' = 34052 by decide)]
  rw [List.foldl_cons, (show crcRefF 34052 'r' = 39928 by decide)]
  rw [List.foldl_cons, (show crcRefF 39928 '.' = 3966 by decide)]
  rw [List.foldl_cons, (show crcRefF 3966 'g' = 37806 by decide)]
  rw [List.foldl_cons, (show crcRefF 37806 'o' = 32915 by decide)]
  rw [List.foldl_cons, (show crcRefF 32915 'v' = 7385 by decide)]
  rw [List.foldl_cons, (show crcRefF 7385 '.' = 53009 by decide)]
  rw [List.foldl_cons, (show crcRefF 53009 'b' = 30023 by decide)]
  rw [List.foldl_cons, (show crcRefF 30023 'c' = 13815 by decide)]
  rw [List.foldl_cons, (show crcRefF 13815 'b' = 56594 by decide)]
  rw [List.foldl_cons, (show crcRefF 56594 '.' = 52604 by decide)]
  rw [List.foldl_cons, (show crcRefF 52604 'p' = 2678 by decide)]
  rw [List.foldl_cons, (show crcRefF 2678 'i' = 10949 by decide)]
  rw [List.foldl_cons, (show crcRefF 10949 'x' = 49079 by decide)]
  rw [List.foldl_cons, (show crcRefF 49079 '0' = 55143 by decide)]
  rw [List.foldl_cons, (show crcRefF 55143 '1' = 64232 by decide)]
  rw [List.foldl_cons, (show crcRefF 64232 '1' = 32807 by decide)]
  rw [List.foldl_cons, (show crcRefF 32807 '6' = 57373 by decide)]
  rw [List.foldl_cons, (show crcRefF 57373 't' = 56893 by decide)]
  rw [List.foldl_cons, (show crcRefF 56893 'e' = 11184 by decide)]
  rw [List.foldl_cons, (show crcRefF 11184 's' = 27645 by decide)]
  rw [List.foldl_cons, (show crcRefF 27645 't' = 7902 by decide)]
  rw [List.foldl_cons, (show crcRefF 7902 '@' = 25915 by decide)]
  rw [List.foldl_cons, (show crcRefF 25915 'e' = 15104 by decide)]
  rw [List.foldl_cons, (show crcRefF 15104 'x' = 30887 by decide)]
  rw [List.foldl_cons, (show crcRefF 30887 'a' = 9240 by decide)]
  rw [List.foldl_cons, (show crcRefF 9240 'm' = 49645 by decide)]
  rw [List.foldl_cons, (show crcRefF 49645 'p' = 23290 by decide)]
  rw [List.foldl_cons, (show crcRefF 23290 'l' = 44181 by decide)]
  rw [List.foldl_cons, (show crcRefF 44181 'e' = 56677 by decide)]
  rw [List.foldl_cons, (show crcRefF 56677 '.' = 47740 by decide)]
  rw [List.foldl_cons, (show crcRefF 47740 'c' = 9812 by decide)]
  rw [List.foldl_cons, (show crcRefF 9812 'o' = 36333 by decide)]
  rw [List.foldl_cons, (show crcRefF 36333 'm' = 4142 by decide)]
  rw [List.foldl_cons, (show crcRefF 4142 '5' = 23239 by decide)]
  rw [List.foldl_cons, (show crcRefF 23239 '2' = 10926 by decide)]
  rw [List.foldl_cons, (show crcRefF 10926 '0' = 7547 by decide)]
  rw [List.foldl_cons, (show crcRefF 7547 '0' = 36559 by decide)]
  rw [List.foldl_cons, (show crcRefF 36559 '0' = 35093 by decide)]
  rw [List.foldl_cons, (show crcRefF 35093 '0' = 9202 by decide)]
  rw [List.foldl_cons, (show crcRefF 9202 '5' = 33015 by decide)]
  rw [List.foldl_cons, (show crcRefF 33015 '3' = 24760 by decide)]
  rw [List.foldl_cons, (show crcRefF 24760 '9' = 29660 by decide)]
  rw [List.foldl_cons, (show crcRefF 29660 '8' = 9647 by decide)]
  rw [List.foldl_cons, (show crcRefF 9647 '6' = 36178 by decide)]
  rw [List.foldl_cons, (show crcRefF 36178 '5' = 29907 by decide)]
  rw [List.foldl_cons, (show crcRefF 29907 '4' = 39876 by decide)]
  rw [List.foldl_cons, (show crcRefF 39876 '0' = 49281 by decide)]
  rw [List.foldl_cons, (show crcRefF 49281 '5' = 16058 by decide)]
  rw [List.foldl_cons, (show crcRefF 16058 '1' = 19439 by decide)]
  rw [List.foldl_cons, (show crcRefF 19439 '0' = 8444 by decide)]
  rw [List.foldl_cons, (show crcRefF 8444 '.' = 7630 by decide)]
  rw [List.foldl_cons, (show crcRefF 7630 '0' = 15311 by decide)]
  rw [List.foldl_cons, (show crcRefF 15311 '0' = 32363 by decide)]
  rw [List.foldl_cons, (show crcRefF 32363 '5' = 37551 by decide)]
  rw [List.foldl_cons, (show crcRefF 37551 '8' = 48032 by decide)]
  rw [List.foldl_cons, (show crcRefF 48032 '0' = 32995 by decide)]
  rw [List.foldl_cons, (show crcRefF 32995 '2' = 25753 by decide)]
  rw [List.foldl_cons, (show crcRefF 25753 'B' = 56740 by decide)]
  rw [List.foldl_cons, (show crcRefF 56740 'R' = 50279 by decide)]
  rw [List.foldl_cons, (show crcRefF 50279 '5' = 38974 by decide)]
  rw [List.foldl_cons, (show crcRefF 38974 '9' = 39883 by decide)]
  rw [List.foldl_cons, (show crcRefF 39883 '1' = 57248 by decide)]
  rw [List.foldl_cons, (show crcRefF 57248 '6' = 52231 by decide)]
  rw [List.foldl_cons, (show crcRefF 52231 'D' = 6016 by decide)]
  rw [List.foldl_cons, (show crcRefF 6016 'E' = 64183 by decide)]
  rw [List.foldl_cons, (show crcRefF 64183 'L' = 28701 by decide)]
  rw [List.foldl_cons, (show crcRefF 28701 'T' = 31206 by decide)]
  rw [List.foldl_cons, (show crcRefF 31206 'A' = 20827 by decide)]
  rw [List.foldl_cons, (show crcRefF 20827 ' ' = 13750 by decide)]
  rw [List.foldl_cons, (show crcRefF 13750 'S' = 47712 by decide)]
  rw [List.foldl_cons, (show crcRefF 47712 'I' = 49020 by decide)]
  rw [List.foldl_cons, (show crcRefF 49020 'L' = 41852 by decide)]
  rw [List.foldl_cons, (show crcRefF 41852 'K' = 38 by decide)]
  rw [List.foldl_cons, (show crcRefF 38 ' ' = 610 by decide)]
  rw [List.foldl_cons, (show crcRefF 610 'P' = 6327 by decide)]
  rw [List.foldl_cons, (show crcRefF 6327 'R' = 24206 by decide)]
  rw [List.foldl_cons, (show crcRefF 24206 'I' = 60630 by decide)]
  rw [List.foldl_cons, (show crcRefF 60630 'N' = 17320 by decide)]
  rw [List.foldl_cons, (show crcRefF 17320 'T' = 51926 by decide)]
  rw [List.foldl_cons, (show crcRefF 51926 '6' = 63635 by decide)]
  rw [List.foldl_cons, (show crcRefF 63635 '0' = 52036 by decide)]
  rw [List.foldl_cons, (show crcRefF 52036 '0' = 6772 by decide)]
  rw [List.foldl_cons, (show crcRefF 6772 '9' = 24577 by decide)]
  rw [List.foldl_cons, (show crcRefF 24577 'S' = 1840 by decide)]
  rw [List.foldl_cons, (show crcRefF 1840 'A' = 6146 by decide)]
  rw [List.foldl_cons, (show crcRefF 6146 'O' = 10258 by decide)]
  rw [List.foldl_cons, (show crcRefF 10258 ' ' = 37640 by decide)]
  rw [List.foldl_cons, (show crcRefF 37640 'P' = 57647 by decide)]
  rw [List.foldl_cons, (show crcRefF 57647 'A' = 39658 by decide)]
  rw [List.foldl_cons, (show crcRefF 39658 'U' = 49827 by decide)]
  rw [List.foldl_cons, (show crcRefF 49827 'L' = 54086 by decide)]
  rw [List.foldl_cons, (show crcRefF 54086 'O' = 1077 by decide)]
  rw [List.foldl_cons, (show crcRefF 1077 '6' = 8977 by decide)]
  rw [List.foldl_cons, (show crcRefF 8977 '2' = 4880 by decide)]
  rw [List.foldl_cons, (show crcRefF 4880 '2' = 9283 by decide)]
  rw [List.foldl_cons, (show crcRefF 9283 '9' = 32924 by decide)]
  rw [List.foldl_cons, (show crcRefF 32924 '0' = 15323 by decide)]
  rw [List.foldl_cons, (show crcRefF 15323 '5' = 15054 by decide)]
  rw [List.foldl_cons, (show crcRefF 15054 '2' = 20232 by decide)]
  rw [List.foldl_cons, (show crcRefF 20232 '5' = 55261 by decide)]
  rw [List.foldl_cons, (show crcRefF 55261 'a' = 6685 by decide)]
  rw [List.foldl_cons, (show crcRefF 6685 '3' = 43083 by decide)]
  rw [List.foldl_cons, (show crcRefF 43083 'f' = 29570 by decide)]
  rw [List.foldl_cons, (show crcRefF 29570 '9' = 27534 by decide)]
  rw [List.foldl_cons, (show crcRefF 27534 'c' = 3848 by decide)]
  rw [List.foldl_cons, (show crcRefF 3848 '2' = 61438 by decide)]
  rw [List.foldl_cons, (show crcRefF 61438 'd' = 57059 by decide)]
  rw [List.foldl_cons, (show crcRefF 57059 '8' = 32488 by decide)]
  rw [List.foldl_cons, (show crcRefF 32488 'e' = 19290 by decide)]
  rw [List.foldl_cons, (show crcRefF 19290 '7' = 58651 by decide)]
  rw [List.foldl_cons, (show crcRefF 58651 'b' = 64111 by decide)]
  rw [List.foldl_cons, (show crcRefF 64111 '6' = 30656 by decide)]
  rw [List.foldl_cons, (show crcRefF 30656 'a' = 45815 by decide)]
  rw [List.foldl_cons, (show crcRefF 45815 '5' = 5743 by decide)]
  rw [List.foldl_cons, (show crcRefF 5743 'f' = 4503 by decide)]
  rw [List.foldl_cons, (show crcRefF 4503 '4' = 58311 by decide)]
  rw [List.foldl_cons, (show crcRefF 58311 'c' = 22152 by decide)]
  rw [List.foldl_cons, (show crcRefF 22152 '3' = 46083 by decide)]
  rw [List.foldl_cons, (show crcRefF 46083 'd' = 51325 by decide)]
  rw [List.foldl_cons, (show crcRefF 51325 '2' = 13141 by decide)]
  rw [List.foldl_cons, (show crcRefF 13141 'e' = 28467 by decide)]
  rw [List.foldl_cons, (show crcRefF 28467 '1' = 34875 by decide)]
  rw [List.foldl_cons, (show crcRefF 34875 'b' = 26468 by decide)]
  rw [List.foldl_cons, (show crcRefF 26468 '0' = 19986 by decide)]
  rw [List.foldl_cons, (show crcRefF 19986 'a' = 51085 by decide)]
  rw [List.foldl_cons, (show crcRefF 51085 '6' = 29246 by decide)]
  rw [List.foldl_cons, (show crcRefF 29246 '3' = 26341 by decide)]
  rw [List.foldl_cons, (show crcRefF 26341 '0' = 57139 by decide)]
  rw [List.foldl_cons, (show crcRefF 57139 '4' = 32581 by decide)]
  rfl

lemma c4_payload_eq :
    pixPayload "10.00" "test@example.com" "a3f9c2d8e7b6a5f4c3d2e1b0a" =
      "0002011226350014br.gov.bcb.pix0116test@example.com52000053986540510.005802BR5916DELTA SILK PRINT6009SAO PAULO62290525a3f9c2d8e7b6a5f4c3d2e1b0a6304" := by
  decide

lemma c4_gen_eq :
    generatePixCode "10.00" "d" "test@example.com" "a3f9c2d8e7b6a5f4c3d2e1b0a" =
      "0002011226350014br.gov.bcb.pix0116test@example.com52000053986540510.005802BR5916DELTA SILK PRINT6009SAO PAULO62290525a3f9c2d8e7b6a5f4c3d2e1b0a63047F45" := by
  unfold generatePixCode
  rw [c4_payload_eq, c4_crc]
  decide

/-! ## Claim C3: the tag-26 nested template length field -/

/-- Claim C3 evaluated at the failing input: with the PIX key
test@example.com (16 characters) the payload carries "35" as the tag-26
length field (characters 10 and 11), which is pixKey.length + 19, while
the encoded sub-fields that follow (characters 12 through 49, the encoded
GUI field followed by the encoded tag-01 key field) span 38 = 16 + 22
characters.  The claim (and the EMV TLV format) require the field to hold
38; the tag-62 template of the same function computes its nested length
correctly as txId.length + 4, so the constant 19 is a slip in the code. -/
theorem tag26_length_mismatch :
    ((generatePixCode "10.00" "d" "test@example.com" "a3f9c2d8e7b6a5f4c3d2e1b0a").data.drop 10).take 2 = "35".data ∧
    ((generatePixCode "10.00" "d" "test@example.com" "a3f9c2d8e7b6a5f4c3d2e1b0a").data.drop 12).take 38 = "0014br.gov.bcb.pix0116test@example.com".data ∧
    ("0014br.gov.bcb.pix0116test@example.com" : String).length =
      ("test@example.com" : String).length + 22 ∧
    padStart 2 '0' (decString (("test@example.com" : String).length + 19)) = "35" ∧
    padStart 2 '0' (decString (("test@example.com" : String).length + 22)) = "38" := by
  refine ⟨?_, ?_, by decide, by decide, by decide⟩
  · rw [c4_gen_eq]
    decide
  · rw [c4_gen_eq]
    decide

/-! ## Claim C4: the concrete vector -/

/-- Counterexample to claim C4 as stated: for the concrete inputs (amount
"10.00", key test@example.com, a concrete outcome of the transaction
reference) the produced payload contains neither "5303986" nor "5402"
followed immediately by "10.00": the source emits the currency as "53986"
with no length field, and the length field of the five-character amount is
"05". -/
theorem concrete_vector_failed_parts :
    strContains (generatePixCode "10.00" "d" "test@example.com" "a3f9c2d8e7b6a5f4c3d2e1b0a") "5303986" = false ∧
    strContains (generatePixCode "10.00" "d" "test@example.com" "a3f9c2d8e7b6a5f4c3d2e1b0a") ("5402" ++ "10.00") = false := by
  refine ⟨?_, ?_⟩
  · rw [c4_gen_eq]
    decide
  · rw [c4_gen_eq]
    decide

/-- Claim C4 (amended): with amount "10.00", PIX key test@example.com and
the concrete transaction reference below, the payload starts with
"000201", contains "53986" (the currency value follows tag 53 directly, no
length field is emitted), contains "5405" immediately followed by "10.00"
(the length field of the five-character amount is "05"), and ends with the
four-character uppercase-hex checksum "7F45", which validatePixCode
confirms. -/
theorem concrete_vector_amended :
    "000201".data.isPrefixOf (generatePixCode "10.00" "d" "test@example.com" "a3f9c2d8e7b6a5f4c3d2e1b0a").data = true ∧
    strContains (generatePixCode "10.00" "d" "test@example.com" "a3f9c2d8e7b6a5f4c3d2e1b0a") "53986" = true ∧
    strContains (generatePixCode "10.00" "d" "test@example.com" "a3f9c2d8e7b6a5f4c3d2e1b0a") ("5405" ++ "10.00") = true ∧
    ((generatePixCode "10.00" "d" "test@example.com" "a3f9c2d8e7b6a5f4c3d2e1b0a").data.drop ((generatePixCode "10.00" "d" "test@example.com" "a3f9c2d8e7b6a5f4c3d2e1b0a").length - 4)) = "7F45".data ∧
    validatePixCode (generatePixCode "10.00" "d" "test@example.com" "a3f9c2d8e7b6a5f4c3d2e1b0a") = true := by
  refine ⟨?_, ?_, ?_, ?_, ?_⟩
  · rw [c4_gen_eq]
    decide
  · rw [c4_gen_eq]
    decide
  · rw [c4_gen_eq]
    decide
  · rw [c4_gen_eq]
    decide
  · exact generate_roundtrip "10.00" "d" "test@example.com" "a3f9c2d8e7b6a5f4c3d2e1b0a"

/-! ## The QR-code cache (generatePixQRCode) -/

/-- The cache state: the entries of the module-level Map qrCodeCache in
insertion order, oldest first, as JavaScript Map iteration order
guarantees. -/
structure QRCache where
  entries : List (String × String)

/-- generatePixQRCode from the source, with the rendering collaborator
(QRCode.toDataURL with its fixed option object) passed as an explicit
fallible function and the module-level cache threaded explicitly.  On a
hit the cached value is returned and the cache is untouched; on a miss the
renderer runs; its failure is caught and rethrown as the fixed message
without touching the cache; on success, if the cache already holds 100 or
more entries the first (oldest) key is deleted, and the new pair is
appended. -/
def generatePixQRCode (render : String → Except String String) (cache : QRCache)
    (pixCode : String) : Except String String × QRCache :=
  match List.lookup pixCode cache.entries with
  | some cached => (Except.ok cached, cache)
  | none =>
    match render pixCode with
    | Except.error _ => (Except.error "Failed to generate QR code", cache)
    | Except.ok url =>
      let afterEvict :=
        if 100 ≤ cache.entries.length then cache.entries.drop 1 else cache.entries
      (Except.ok url, ⟨afterEvict ++ [(pixCode, url)]⟩)

/-- The cache state after one request (on a rendering failure the error
goes to the caller and the module cache is unchanged). -/
def stepCache (render : String → Except String String) (cache : QRCache)
    (code : String) : QRCache :=
  (generatePixQRCode render cache code).2

/-- The cache state after a sequence of requests. -/
def runRenders (render : String → Except String String) (cache : QRCache)
    (codes : List String) : QRCache :=
  codes.foldl (stepCache render) cache

lemma lookup_append_of_none {k : String} {l1 : List (String × String)}
    (l2 : List (String × String)) (h : List.lookup k l1 = none) :
    List.lookup k (l1 ++ l2) = List.lookup k l2 := by
  induction l1 with
  | nil => rfl
  | cons e t ih =>
    obtain ⟨a, b⟩ := e
    cases hk : k == a with
    | true => simp [List.lookup, hk] at h
    | false =>
      simp only [List.cons_append, List.lookup, hk] at h ⊢
      exact ih h

lemma lookup_map_pair (f : String → String) (k : String) (l : List String) :
    List.lookup k (l.map fun c => (c, f c)) = if k ∈ l then some (f k) else none := by
  induction l with
  | nil => rfl
  | cons c t ih =>
    simp only [List.map_cons, List.lookup]
    cases hk : k == c with
    | true =>
      have hkc : k = c := by simpa using hk
      subst hkc
      simp
    | false =>
      have hne : k ≠ c := by simpa using hk
      simp [ih, hne]

/-- Filling an under-capacity cache with fresh distinct keys appends them
in request order, with no eviction. -/
lemma runRenders_fill (f : String → String) (codes : List String)
    (acc : List (String × String)) (hnd : codes.Nodup)
    (hfresh : ∀ c ∈ codes, List.lookup c acc = none)
    (hlen : acc.length + codes.length ≤ 100) :
    runRenders (fun c => Except.ok (f c)) ⟨acc⟩ codes =
      ⟨acc ++ codes.map (fun c => (c, f c))⟩ := by
  induction codes generalizing acc with
  | nil => simp [runRenders]
  | cons c t ih =>
    have hc : List.lookup c acc = none := hfresh c (List.mem_cons_self c t)
    have hlt : ¬ (100 ≤ acc.length) := by
      simp only [List.length_cons] at hlen
      omega
    have hstep : stepCache (fun c => Except.ok (f c)) ⟨acc⟩ c = ⟨acc ++ [(c, f c)]⟩ := by
      simp [stepCache, generatePixQRCode, hc, hlt]
    obtain ⟨hcmem, hndt⟩ := List.nodup_cons.mp hnd
    simp only [runRenders, List.foldl_cons]
    rw [hstep]
    have hfresh2 : ∀ c2 ∈ t, List.lookup c2 (acc ++ [(c, f c)]) = none := by
      intro c2 hc2
      rw [lookup_append_of_none _ (hfresh c2 (List.mem_cons_of_mem _ hc2))]
      have hne : c2 ≠ c := fun he => hcmem (he ▸ hc2)
      simp [List.lookup, beq_eq_false_iff_ne.mpr hne]
    have hlen2 : (acc ++ [(c, f c)]).length + t.length ≤ 100 := by
      simp only [List.length_append, List.length_cons] at hlen ⊢
      simp only [List.length_nil]
      omega
    have := ih (acc ++ [(c, f c)]) hndt hfresh2 hlen2
    simp only [runRenders] at this
    rw [this]
    exact congrArg QRCache.mk (by simp)

/-- Claim C8: starting from the empty cache, rendering 101 distinct
payloads in sequence (with a renderer that always succeeds) leaves exactly
the 100 last payloads cached in insertion order: the first-inserted
payload has been evicted and a lookup for it misses, every other payload
is still present with its rendered value, and a cache hit returns the
cached value with the cache state unchanged, so a hit does not refresh the
eviction order. -/
theorem cache_fifo_eviction (f : String → String) (c0 : String) (codes : List String)
    (hlen : codes.length = 100) (hnd : (c0 :: codes).Nodup) :
    (runRenders (fun c => Except.ok (f c)) ⟨[]⟩ (c0 :: codes)).entries =
      codes.map (fun c => (c, f c)) ∧
    List.lookup c0 (runRenders (fun c => Except.ok (f c)) ⟨[]⟩ (c0 :: codes)).entries = none ∧
    (∀ c ∈ codes,
      List.lookup c (runRenders (fun c => Except.ok (f c)) ⟨[]⟩ (c0 :: codes)).entries =
        some (f c)) ∧
    (∀ (cache : QRCache) (k v : String), List.lookup k cache.entries = some v →
      generatePixQRCode (fun c => Except.ok (f c)) cache k = (Except.ok v, cache)) := by
  obtain ⟨hc0, hndt⟩ := List.nodup_cons.mp hnd
  have hne : codes ≠ [] := by
    intro h
    rw [h] at hlen
    simp at hlen
  have hsplit := List.dropLast_append_getLast hne
  have hIlen : codes.dropLast.length = 99 := by
    rw [List.length_dropLast, hlen]
  have hLmem : codes.getLast hne ∈ codes := List.getLast_mem hne
  have hLnotI : codes.getLast hne ∉ codes.dropLast := by
    intro hmem
    have hnd2 : (codes.dropLast ++ [codes.getLast hne]).Nodup := by
      rw [hsplit]
      exact hndt
    rcases (List.nodup_append.mp hnd2) with ⟨_, _, hdisj⟩
    exact hdisj hmem (List.mem_singleton_self _)
  have hrun : (runRenders (fun c => Except.ok (f c)) ⟨[]⟩ (c0 :: codes)).entries =
      codes.map (fun c => (c, f c)) := by
    have h0 : stepCache (fun c => Except.ok (f c)) ⟨[]⟩ c0 = ⟨[(c0, f c0)]⟩ := by
      simp [stepCache, generatePixQRCode, List.lookup]
    have hndI : codes.dropLast.Nodup := hndt.sublist (List.dropLast_sublist codes)
    have hfreshI : ∀ c ∈ codes.dropLast, List.lookup c [(c0, f c0)] = none := by
      intro c hcmem
      have hcc : c ∈ codes := (List.dropLast_sublist codes).mem hcmem
      have hne2 : c ≠ c0 := fun he => hc0 (he ▸ hcc)
      simp [List.lookup, beq_eq_false_iff_ne.mpr hne2]
    have hI : List.foldl (stepCache (fun c => Except.ok (f c))) ⟨[(c0, f c0)]⟩
        codes.dropLast = ⟨(c0, f c0) :: codes.dropLast.map (fun c => (c, f c))⟩ := by
      have hfill := runRenders_fill f codes.dropLast [(c0, f c0)] hndI hfreshI
        (by simp [hIlen])
      simpa [runRenders] using hfill
    have hne2 : codes.getLast hne ≠ c0 := fun he => hc0 (he ▸ hLmem)
    have hbeq : (codes.getLast hne == c0) = false := beq_eq_false_iff_ne.mpr hne2
    have hmiss : List.lookup (codes.getLast hne)
        ((c0, f c0) :: codes.dropLast.map (fun c => (c, f c))) = none := by
      simp only [List.lookup, hbeq, lookup_map_pair]
      rw [if_neg hLnotI]
    have hfull : 100 ≤ ((c0, f c0) :: codes.dropLast.map (fun c => (c, f c))).length := by
      rw [List.length_cons, List.length_map, hIlen]
    have hL : stepCache (fun c => Except.ok (f c))
        ⟨(c0, f c0) :: codes.dropLast.map (fun c => (c, f c))⟩ (codes.getLast hne) =
        ⟨codes.dropLast.map (fun c => (c, f c)) ++
          [(codes.getLast hne, f (codes.getLast hne))]⟩ := by
      simp only [stepCache, generatePixQRCode, hmiss]
      rw [if_pos hfull]
      rfl
    have hgoal : List.foldl (stepCache (fun c => Except.ok (f c))) ⟨[(c0, f c0)]⟩ codes =
        ⟨codes.map (fun c => (c, f c))⟩ := by
      conv_lhs => rw [← hsplit]
      rw [List.foldl_append, hI, List.foldl_cons, List.foldl_nil, hL]
      conv_rhs => rw [← hsplit]
      simp [List.map_append]
    simp only [runRenders, List.foldl_cons]
    rw [h0, hgoal]
  refine ⟨hrun, ?_, ?_, ?_⟩
  · rw [hrun, lookup_map_pair]
    simp [hc0]
  · intro c hcmem
    rw [hrun, lookup_map_pair]
    simp [hcmem]
  · intro cache k v hkv
    simp [generatePixQRCode, hkv]

/-- Witness for C8: 101 distinct one-character payloads rendered through a
renderer that returns the payload itself. -/
theorem cache_fifo_eviction_witness :
    ((List.range 100).map (fun i => String.mk [Char.ofNat (48 + i)])).length = 100 ∧
    (String.mk [Char.ofNat 33] ::
      (List.range 100).map (fun i => String.mk [Char.ofNat (48 + i)])).Nodup ∧
    (runRenders (fun c => Except.ok c) ⟨[]⟩
        (String.mk [Char.ofNat 33] ::
          (List.range 100).map (fun i => String.mk [Char.ofNat (48 + i)]))).entries =
      ((List.range 100).map (fun i => String.mk [Char.ofNat (48 + i)])).map
        (fun c => (c, c)) :=
  ⟨by decide, by decide,
    (cache_fifo_eviction (fun c => c) (String.mk [Char.ofNat 33])
      ((List.range 100).map (fun i => String.mk [Char.ofNat (48 + i)]))
      (by decide) (by decide)).1⟩

/-- Claim C9: when the payload is not cached and the rendering
collaborator fails, generatePixQRCode propagates an error to the caller
(the fixed rethrown message of the source), returns the cache unchanged,
so the failure is not cached, and a subsequent call with the same payload
invokes the renderer again: with a second renderer that succeeds the same
call returns that renderer output. -/
theorem render_failure_not_cached (render render2 : String → Except String String)
    (cache : QRCache) (pixCode u e : String)
    (hmiss : List.lookup pixCode cache.entries = none)
    (herr : render pixCode = Except.error e)
    (hok : render2 pixCode = Except.ok u) :
    generatePixQRCode render cache pixCode =
      (Except.error "Failed to generate QR code", cache) ∧
    (generatePixQRCode render2 cache pixCode).1 = Except.ok u := by
  constructor
  · simp [generatePixQRCode, hmiss, herr]
  · simp [generatePixQRCode, hmiss, hok]

/-- Witness for C9 on the empty cache with a failing then a succeeding
renderer. -/
theorem render_failure_not_cached_witness :
    List.lookup "p" (QRCache.mk []).entries = none ∧
    (fun _ : String => (Except.error "boom" : Except String String)) "p" =
      Except.error "boom" ∧
    (fun _ : String => (Except.ok "url" : Except String String)) "p" = Except.ok "url" ∧
    (generatePixQRCode (fun _ => Except.error "boom") (QRCache.mk []) "p" =
      (Except.error "Failed to generate QR code", QRCache.mk []) ∧
     (generatePixQRCode (fun _ => Except.ok "url") (QRCache.mk []) "p").1 = Except.ok "url") :=
  ⟨rfl, rfl, rfl,
    render_failure_not_cached (fun _ => Except.error "boom") (fun _ => Except.ok "url")
      (QRCache.mk []) "p" "url" "boom" rfl rfl rfl⟩

end DeltaSilk
